import Mathlib

/-!
Verification of the color-contrast validator of the qrcode-api repository
(`src/main.py`): the functions `get_relative_luminance` and
`check_color_contrast`, embedded shallowly over the real numbers.

The Python code operates on RGB triples of integers in [0, 255], normalizes
each channel by 255.0, linearizes it with the piecewise sRGB gamma formula
(breakpoint 0.03928, exponent 2.4), combines the channels with weights
0.2126 / 0.7152 / 0.0822, and compares the contrast of two colors
against the module constant MIN_CONTRAST_RATIO = 4.5.  A failed check
raises HTTPException(status_code=400, ...); success returns None.  Here the
raise/return-None behaviour is embedded as an explicit outcome type, and the
module-level configuration constant is passed as an explicit argument.
-/

namespace QrcodeApi

/-- An RGB color: the triple of channel intensities that
`ImageColor.getcolor(..., "RGB")` hands to the validator.  Channels are
integers; validity (each in [0, 255]) is a separate predicate. -/
structure Color where
  r : ℕ
  g : ℕ
  b : ℕ
deriving DecidableEq, Repr

/-- Channel range invariant: every channel lies in [0, 255] (the lower bound
is automatic for naturals). -/
def Color.valid (c : Color) : Prop :=
  c.r ≤ 255 ∧ c.g ≤ 255 ∧ c.b ≤ 255

instance (c : Color) : Decidable c.valid := by
  unfold Color.valid; infer_instance

/-- One channel of `get_relative_luminance`: the linearization applied to a
normalized channel value, `x / 12.92 if x <= 0.03928 else
((x + 0.055) / 1.055) ** 2.4`. -/
noncomputable def linearize (x : ℝ) : ℝ :=
  if x ≤ 0.03928 then x / 12.92 else ((x + 0.055) / 1.055) ^ (2.4 : ℝ)

/-- Embedding of `get_relative_luminance(rgb)` from `src/main.py`:
each channel is divided by 255.0, linearized, and the results are combined
as `0.2126 * r + 0.7152 * g + 0.0822 * b` (these are the literal weights in
the source). -/
noncomputable def get_relative_luminance (c : Color) : ℝ :=
  0.2126 * linearize ((c.r : ℝ) / 255.0) +
    0.7152 * linearize ((c.g : ℝ) / 255.0) +
    0.0822 * linearize ((c.b : ℝ) / 255.0)

/-- The module-level configuration constant `MIN_CONTRAST_RATIO = 4.5`. -/
def MIN_CONTRAST_RATIO : ℝ := 4.5

/-- The machine-distinguishable failure kinds of the validator. -/
inductive ErrorKind where
  | fillNotDarker
  | insufficientContrast
deriving DecidableEq, Repr

/-- Result of `check_color_contrast`: the Python function returns `None` on
success (`accepted`) and otherwise raises `HTTPException` with status 400;
the `insufficientContrast` exception message interpolates the computed
contrast value and the configured minimum, which are carried here as
fields. -/
inductive ContrastOutcome where
  | accepted : ContrastOutcome
  | fillNotDarker (statusCode : ℕ) : ContrastOutcome
  | insufficientContrast (statusCode : ℕ) (computed : ℝ) (minimum : ℝ) :
      ContrastOutcome

/-- The value `(lum2 + 0.05) / (lum1 + 0.05)` computed by
`check_color_contrast` after the ordering check (`color1` is the fill,
`color2` the background). -/
noncomputable def contrastValue (c1 c2 : Color) : ℝ :=
  (get_relative_luminance c2 + 0.05) / (get_relative_luminance c1 + 0.05)

/-- Embedding of `check_color_contrast(color1_rgb, color2_rgb)` from
`src/main.py`, with the module constant MIN_CONTRAST_RATIO made an explicit
`threshold` argument.  `if lum1 > lum2` raises the fill-not-darker error;
otherwise `ratio = (lum2 + 0.05) / (lum1 + 0.05)` and `if ratio <
MIN_CONTRAST_RATIO` raises the low-contrast error; otherwise the function
falls through and returns. -/
noncomputable def check_color_contrast (threshold : ℝ) (c1 c2 : Color) :
    ContrastOutcome :=
  if get_relative_luminance c2 < get_relative_luminance c1 then
    ContrastOutcome.fillNotDarker 400
  else if contrastValue c1 c2 < threshold then
    ContrastOutcome.insufficientContrast 400 (contrastValue c1 c2) threshold
  else
    ContrastOutcome.accepted

/-- Rounding to two decimal places, as the format specifier `:.2f` does to
the computed value interpolated into the low-contrast message. -/
noncomputable def roundTo2 (x : ℝ) : ℝ := (round (100 * x) : ℤ) / 100

/-- The machine-distinguishable kind of a rejection outcome. -/
def ContrastOutcome.kind : ContrastOutcome → Option ErrorKind
  | ContrastOutcome.accepted => none
  | ContrastOutcome.fillNotDarker _ => some ErrorKind.fillNotDarker
  | ContrastOutcome.insufficientContrast _ _ _ =>
      some ErrorKind.insufficientContrast

/-- The contrast value as it appears in the human-readable message: the
low-contrast detail string embeds `f"{ratio:.2f}"`, the computed value
rounded to two decimal places; no other outcome reports a value. -/
noncomputable def ContrastOutcome.messageValue2dp : ContrastOutcome → Option ℝ
  | ContrastOutcome.insufficientContrast _ v _ => some (roundTo2 v)
  | _ => none

/-- The required minimum as it appears in the human-readable message
(`f"{MIN_CONTRAST_RATIO}"` in the low-contrast detail string). -/
def ContrastOutcome.messageMinimum : ContrastOutcome → Option ℝ
  | ContrastOutcome.insufficientContrast _ _ m => some m
  | _ => none

/-- The relative-luminance operation exactly as the spec states it:
normalize each channel by 255.0 to [0, 1]; linearize with
`c / 12.92` when `c <= 0.03928` and `((c + 0.055) / 1.055) ^ 2.4`
otherwise; combine with the fixed perceptual weights
`0.2126 * r_lin + 0.7152 * g_lin + 0.0822 * b_lin`. -/
noncomputable def spec_relative_luminance (c : Color) : ℝ :=
  let lin : ℝ → ℝ := fun x =>
    if x ≤ 0.03928 then x / 12.92 else ((x + 0.055) / 1.055) ^ (2.4 : ℝ)
  let rLin := lin ((c.r : ℝ) / 255.0)
  let gLin := lin ((c.g : ℝ) / 255.0)
  let bLin := lin ((c.b : ℝ) / 255.0)
  0.2126 * rLin + 0.7152 * gLin + 0.0822 * bLin

/-! ## Basic evaluation lemmas -/

theorem linearize_of_le {x : ℝ} (h : x ≤ 0.03928) :
    linearize x = x / 12.92 := if_pos h

theorem linearize_of_gt {x : ℝ} (h : ¬ x ≤ 0.03928) :
    linearize x = ((x + 0.055) / 1.055) ^ (2.4 : ℝ) := if_neg h

theorem linearize_zero : linearize 0 = 0 := by
  rw [linearize_of_le (by norm_num)]; norm_num

theorem linearize_one : linearize 1 = 1 := by
  rw [linearize_of_gt (by norm_num)]
  norm_num

theorem linearize_nonneg {x : ℝ} (hx : 0 ≤ x) : 0 ≤ linearize x := by
  unfold linearize
  split
  · positivity
  · exact Real.rpow_nonneg (by positivity) _

theorem lum_nonneg (c : Color) : 0 ≤ get_relative_luminance c := by
  unfold get_relative_luminance
  have h1 := linearize_nonneg (x := (c.r : ℝ) / 255.0) (by positivity)
  have h2 := linearize_nonneg (x := (c.g : ℝ) / 255.0) (by positivity)
  have h3 := linearize_nonneg (x := (c.b : ℝ) / 255.0) (by positivity)
  nlinarith

theorem lum_black : get_relative_luminance ⟨0, 0, 0⟩ = 0 := by
  unfold get_relative_luminance
  norm_num [linearize_zero]

theorem lum_white : get_relative_luminance ⟨255, 255, 255⟩ = 1.01 := by
  unfold get_relative_luminance
  norm_num [linearize_one]

/-! ## Case lemmas for the checker -/

theorem check_of_gt {t : ℝ} {c1 c2 : Color}
    (h : get_relative_luminance c2 < get_relative_luminance c1) :
    check_color_contrast t c1 c2 = ContrastOutcome.fillNotDarker 400 := by
  unfold check_color_contrast
  rw [if_pos h]

theorem check_of_le_lt {t : ℝ} {c1 c2 : Color}
    (h : get_relative_luminance c1 ≤ get_relative_luminance c2)
    (hv : contrastValue c1 c2 < t) :
    check_color_contrast t c1 c2 =
      ContrastOutcome.insufficientContrast 400 (contrastValue c1 c2) t := by
  unfold check_color_contrast
  rw [if_neg (not_lt.mpr h), if_pos hv]

theorem check_of_le_ge {t : ℝ} {c1 c2 : Color}
    (h : get_relative_luminance c1 ≤ get_relative_luminance c2)
    (hv : t ≤ contrastValue c1 c2) :
    check_color_contrast t c1 c2 = ContrastOutcome.accepted := by
  unfold check_color_contrast
  rw [if_neg (not_lt.mpr h), if_neg (not_lt.mpr hv)]

/-! ## Monotonicity of the linearization on the integer channel grid

The continuous piecewise formula has a tiny downward jump at the breakpoint
(0.03928 / 12.92 = 0.0030402... exceeds ((0.03928 + 0.055) / 1.055) ^ 2.4 =
0.0030394...), so it is not monotone on all of [0, 1].  But the channels the
program feeds it are j / 255 for integers j, and the jump lies strictly
inside the gap between 10 / 255 and 11 / 255, so on the grid the function is
monotone. -/

theorem grid_le_breakpoint {j : ℕ} (hj : j ≤ 10) :
    (j : ℝ) / 255 ≤ 0.03928 := by
  have : (j : ℝ) ≤ 10 := by exact_mod_cast hj
  nlinarith

theorem grid_gt_breakpoint {k : ℕ} (hk : ¬ (k : ℝ) / 255 ≤ 0.03928) :
    11 ≤ k := by
  by_contra h
  push_neg at h
  have : k ≤ 10 := Nat.lt_succ_iff.mp h
  exact hk (grid_le_breakpoint this)

/-- The crux of the grid monotonicity: the largest first-branch value on the
grid, `(10 / 255) / 12.92 = 50 / 16473`, does not exceed the smallest
second-branch value on the grid, `((11 / 255 + 0.055) / 1.055) ^ 2.4 =
(1001 / 10761) ^ 2.4`.  Raising both sides to the fifth power turns this
into the rational inequality `(50 / 16473) ^ 5 ≤ (1001 / 10761) ^ 12`. -/
theorem breakpoint_key :
    (50 / 16473 : ℝ) ≤ (1001 / 10761 : ℝ) ^ (2.4 : ℝ) := by
  have hbase : (0 : ℝ) ≤ 1001 / 10761 := by norm_num
  have hpow5 : ((1001 / 10761 : ℝ) ^ (2.4 : ℝ)) ^ (5 : ℕ) =
      (1001 / 10761 : ℝ) ^ (12 : ℕ) := by
    rw [← Real.rpow_natCast ((1001 / 10761 : ℝ) ^ (2.4 : ℝ)) 5,
      ← Real.rpow_mul hbase]
    norm_num
  have h5 : (50 / 16473 : ℝ) ^ (5 : ℕ) ≤
      ((1001 / 10761 : ℝ) ^ (2.4 : ℝ)) ^ (5 : ℕ) := by
    rw [hpow5]
    norm_num
  exact le_of_pow_le_pow_left₀ (by norm_num)
    (Real.rpow_nonneg hbase _) h5

theorem linearize_grid_mono {j k : ℕ} (hjk : j ≤ k) :
    linearize ((j : ℝ) / 255) ≤ linearize ((k : ℝ) / 255) := by
  have hjk' : (j : ℝ) / 255 ≤ (k : ℝ) / 255 := by
    have : (j : ℝ) ≤ (k : ℝ) := by exact_mod_cast hjk
    linarith
  have hcast : (j : ℝ) ≤ (k : ℝ) := by exact_mod_cast hjk
  by_cases hk : (k : ℝ) / 255 ≤ 0.03928
  · have hj : (j : ℝ) / 255 ≤ 0.03928 := le_trans hjk' hk
    rw [linearize_of_le hj, linearize_of_le hk]
    gcongr
  · by_cases hj : (j : ℝ) / 255 ≤ 0.03928
    · -- j stays on the linear branch, k has crossed to the power branch
      rw [linearize_of_le hj, linearize_of_gt hk]
      have hj10 : (j : ℝ) ≤ 10 := by
        by_contra h
        push_neg at h
        have h11 : 11 ≤ j := by
          have : 10 < j := by exact_mod_cast h
          omega
        have h11' : (11 : ℝ) ≤ (j : ℝ) := by exact_mod_cast h11
        have : (0.03928 : ℝ) < (11 : ℝ) / 255 := by norm_num
        have hj11 : (11 : ℝ) / 255 ≤ (j : ℝ) / 255 := by gcongr
        linarith
      have hk11 : 11 ≤ k := grid_gt_breakpoint hk
      have hk11' : (11 : ℝ) ≤ (k : ℝ) := by exact_mod_cast hk11
      have hstep1 : (j : ℝ) / 255 / 12.92 ≤ 50 / 16473 :=
        calc (j : ℝ) / 255 / 12.92 ≤ (10 : ℝ) / 255 / 12.92 := by gcongr
          _ = 50 / 16473 := by norm_num
      have hstep3 : ((1001 / 10761 : ℝ)) ^ (2.4 : ℝ) ≤
          (((k : ℝ) / 255 + 0.055) / 1.055) ^ (2.4 : ℝ) := by
        apply Real.rpow_le_rpow (by norm_num) _ (by norm_num)
        calc (1001 / 10761 : ℝ) = ((11 : ℝ) / 255 + 0.055) / 1.055 := by
              norm_num
          _ ≤ ((k : ℝ) / 255 + 0.055) / 1.055 := by gcongr
      exact le_trans hstep1 (le_trans breakpoint_key hstep3)
    · rw [linearize_of_gt hj, linearize_of_gt hk]
      apply Real.rpow_le_rpow (by positivity) _ (by norm_num)
      gcongr

/-- `get_relative_luminance` is monotone in each channel simultaneously:
raising no channel can raise no summand, since each weight is positive. -/
theorem lum_mono {c1 c2 : Color} (hr : c1.r ≤ c2.r) (hg : c1.g ≤ c2.g)
    (hb : c1.b ≤ c2.b) :
    get_relative_luminance c1 ≤ get_relative_luminance c2 := by
  unfold get_relative_luminance
  have h1 := linearize_grid_mono hr
  have h2 := linearize_grid_mono hg
  have h3 := linearize_grid_mono hb
  norm_num at h1 h2 h3 ⊢
  nlinarith

theorem round_hundred : round (100 : ℝ) = 100 := by
  rw [show (100 : ℝ) = ((100 : ℕ) : ℝ) by norm_num]
  exact round_natCast 100

theorem roundTo2_one : roundTo2 1 = 1 := by
  unfold roundTo2
  rw [mul_one, round_hundred]
  norm_num

theorem lum_gray1 : get_relative_luminance ⟨1, 1, 1⟩ = 101 / 329460 := by
  unfold get_relative_luminance
  rw [show ((((1 : ℕ) : ℝ)) / 255.0) = 1 / 255 by norm_num,
    linearize_of_le (by norm_num)]
  norm_num

theorem contrastValue_self {c : Color} : contrastValue c c = 1 := by
  unfold contrastValue
  have h := lum_nonneg c
  have hpos : get_relative_luminance c + 0.05 ≠ 0 := by positivity
  field_simp

/-! ## The claims -/

/-- Claim C1: for every Color with each channel in [0, 255],
`get_relative_luminance` computes exactly the formula stated by the spec:
each channel normalized by 255.0, linearized as `c / 12.92` when
`c <= 0.03928` and `((c + 0.055) / 1.055) ^ 2.4` otherwise, and the three
linearized channels combined as
`0.2126 * r_lin + 0.7152 * g_lin + 0.0822 * b_lin`. -/
theorem claim_C1 (c : Color) (_h : c.valid) :
    get_relative_luminance c = spec_relative_luminance c := rfl

theorem claim_C1_witness :
    Color.valid ⟨0, 0, 0⟩ ∧
      get_relative_luminance ⟨0, 0, 0⟩ = spec_relative_luminance ⟨0, 0, 0⟩ :=
  ⟨by decide, claim_C1 ⟨0, 0, 0⟩ (by decide)⟩

/-- Claim C2: whenever the fill's luminance strictly exceeds the
background's, `check_color_contrast` fails with the fill-not-darker error
(status 400), for every threshold — the ordering check precedes any use of
the contrast value, and the outcome carries no computed value. -/
theorem claim_C2 (t : ℝ) (c1 c2 : Color)
    (h : get_relative_luminance c2 < get_relative_luminance c1) :
    check_color_contrast t c1 c2 = ContrastOutcome.fillNotDarker 400 :=
  check_of_gt h

theorem claim_C2_witness :
    get_relative_luminance ⟨0, 0, 0⟩ < get_relative_luminance ⟨255, 255, 255⟩ ∧
      check_color_contrast 4.5 ⟨255, 255, 255⟩ ⟨0, 0, 0⟩ =
        ContrastOutcome.fillNotDarker 400 := by
  have h : get_relative_luminance ⟨0, 0, 0⟩ <
      get_relative_luminance ⟨255, 255, 255⟩ := by
    rw [lum_black, lum_white]; norm_num
  exact ⟨h, claim_C2 4.5 _ _ h⟩

/-- Claim C3: when the fill is not lighter than the background, the checker
rejects with the insufficient-contrast kind exactly when
`(lum_back + 0.05) / (lum_fill + 0.05)` is strictly below the threshold; a
pair whose value equals the threshold exactly is accepted (the boundary is
inclusive). -/
theorem claim_C3 (t : ℝ) (c1 c2 : Color)
    (h : get_relative_luminance c1 ≤ get_relative_luminance c2) :
    (check_color_contrast t c1 c2 =
        ContrastOutcome.insufficientContrast 400 (contrastValue c1 c2) t ↔
      contrastValue c1 c2 < t) ∧
    (contrastValue c1 c2 = t →
      check_color_contrast t c1 c2 = ContrastOutcome.accepted) := by
  refine ⟨⟨fun he => ?_, fun hlt => check_of_le_lt h hlt⟩, fun heq =>
    check_of_le_ge h (le_of_eq heq.symm)⟩
  by_contra hlt
  push_neg at hlt
  rw [check_of_le_ge h hlt] at he
  simp at he

theorem claim_C3_witness :
    (get_relative_luminance ⟨0, 0, 0⟩ ≤
        get_relative_luminance ⟨255, 255, 255⟩) ∧
    ((check_color_contrast 4.5 ⟨0, 0, 0⟩ ⟨255, 255, 255⟩ =
        ContrastOutcome.insufficientContrast 400
          (contrastValue ⟨0, 0, 0⟩ ⟨255, 255, 255⟩) 4.5 ↔
      contrastValue ⟨0, 0, 0⟩ ⟨255, 255, 255⟩ < 4.5) ∧
    (contrastValue ⟨0, 0, 0⟩ ⟨255, 255, 255⟩ = 4.5 →
      check_color_contrast 4.5 ⟨0, 0, 0⟩ ⟨255, 255, 255⟩ =
        ContrastOutcome.accepted)) := by
  have h : get_relative_luminance ⟨0, 0, 0⟩ ≤
      get_relative_luminance ⟨255, 255, 255⟩ := by
    rw [lum_black, lum_white]; norm_num
  exact ⟨h, claim_C3 4.5 _ _ h⟩

/-- Claim C4: for every Color `C` and every threshold above 1,
`check_color_contrast` on the identical pair rejects with the
insufficient-contrast kind, computed value exactly 1, and the message
reports the value rounded to two decimal places as 1. -/
theorem claim_C4 (t : ℝ) (C : Color) (ht : 1 < t) :
    check_color_contrast t C C =
      ContrastOutcome.insufficientContrast 400 1 t ∧
    (check_color_contrast t C C).messageValue2dp = some 1 := by
  have hc : check_color_contrast t C C =
      ContrastOutcome.insufficientContrast 400 (contrastValue C C) t :=
    check_of_le_lt (le_refl _) (by rw [contrastValue_self]; exact ht)
  rw [contrastValue_self] at hc
  refine ⟨hc, ?_⟩
  rw [hc]
  simp [ContrastOutcome.messageValue2dp, roundTo2_one]

theorem claim_C4_witness :
    (1 : ℝ) < 4.5 ∧
    (check_color_contrast 4.5 ⟨7, 7, 7⟩ ⟨7, 7, 7⟩ =
        ContrastOutcome.insufficientContrast 400 1 4.5 ∧
      (check_color_contrast 4.5 ⟨7, 7, 7⟩ ⟨7, 7, 7⟩).messageValue2dp =
        some 1) :=
  ⟨by norm_num, claim_C4 4.5 ⟨7, 7, 7⟩ (by norm_num)⟩

/-- Claim C5 (evaluating the code at the spec's extreme pair): black on
white is accepted, and black's luminance is 0 as claimed; but the code's
luminance of pure white is 1.01 (the channel weights 0.2126, 0.7152, 0.0822
sum to 1.01, not 1), and so the computed contrast value is
(1.01 + 0.05) / 0.05 = 21.2, not the claimed 21.0. -/
theorem claim_C5 :
    check_color_contrast 4.5 ⟨0, 0, 0⟩ ⟨255, 255, 255⟩ =
      ContrastOutcome.accepted ∧
    get_relative_luminance ⟨0, 0, 0⟩ = 0 ∧
    get_relative_luminance ⟨255, 255, 255⟩ = 1.01 ∧
    contrastValue ⟨0, 0, 0⟩ ⟨255, 255, 255⟩ = 21.2 := by
  have hv : contrastValue ⟨0, 0, 0⟩ ⟨255, 255, 255⟩ = 21.2 := by
    unfold contrastValue
    rw [lum_black, lum_white]
    norm_num
  refine ⟨?_, lum_black, lum_white, hv⟩
  apply check_of_le_ge
  · rw [lum_black, lum_white]; norm_num
  · rw [hv]; norm_num

/-- Claim C6 (evaluating the code at the failing input): the luminance the
code assigns to pure white is 1.01, strictly above 1, so the range claim
`[0, 1]` fails — the blue weight in the source is 0.0822 where the standard
sRGB relative-luminance formula (which the docstring and spec name) has
0.0722, making the weights sum to 1.01. -/
theorem claim_C6 :
    get_relative_luminance ⟨255, 255, 255⟩ = 1.01 ∧
    ¬ get_relative_luminance ⟨255, 255, 255⟩ ≤ 1 := by
  refine ⟨lum_white, ?_⟩
  rw [lum_white]; norm_num

/-- Claim C7: for a fixed background, strictly darkening every channel of an
accepted fill keeps it accepted: the luminance of the darker fill cannot
exceed the original's (monotonicity of `get_relative_luminance` on the
integer channel grid), so the ordering check still passes and the contrast
value can only grow. -/
theorem claim_C7 (t : ℝ) (bg F F' : Color)
    (hr : F'.r < F.r) (hg : F'.g < F.g) (hb : F'.b < F.b)
    (_hF : F.valid)
    (hacc : check_color_contrast t F bg = ContrastOutcome.accepted) :
    check_color_contrast t F' bg = ContrastOutcome.accepted := by
  have hord : get_relative_luminance F ≤ get_relative_luminance bg := by
    by_contra h
    push_neg at h
    rw [check_of_gt h] at hacc
    simp at hacc
  have hrat : t ≤ contrastValue F bg := by
    by_contra h
    push_neg at h
    rw [check_of_le_lt hord h] at hacc
    simp at hacc
  have hlum : get_relative_luminance F' ≤ get_relative_luminance F :=
    lum_mono (le_of_lt hr) (le_of_lt hg) (le_of_lt hb)
  have hge : contrastValue F bg ≤ contrastValue F' bg := by
    unfold contrastValue
    have hnn : 0 ≤ get_relative_luminance bg + 0.05 := by
      have := lum_nonneg bg; linarith
    have hpos' : 0 < get_relative_luminance F' + 0.05 := by
      have := lum_nonneg F'; linarith
    gcongr
  exact check_of_le_ge (le_trans hlum hord) (le_trans hrat hge)

theorem claim_C7_witness :
    (⟨0, 0, 0⟩ : Color).r < (⟨1, 1, 1⟩ : Color).r ∧
    (⟨0, 0, 0⟩ : Color).g < (⟨1, 1, 1⟩ : Color).g ∧
    (⟨0, 0, 0⟩ : Color).b < (⟨1, 1, 1⟩ : Color).b ∧
    Color.valid ⟨1, 1, 1⟩ ∧
    check_color_contrast 4.5 ⟨1, 1, 1⟩ ⟨255, 255, 255⟩ =
      ContrastOutcome.accepted ∧
    check_color_contrast 4.5 ⟨0, 0, 0⟩ ⟨255, 255, 255⟩ =
      ContrastOutcome.accepted := by
  have hacc : check_color_contrast 4.5 ⟨1, 1, 1⟩ ⟨255, 255, 255⟩ =
      ContrastOutcome.accepted := by
    apply check_of_le_ge
    · rw [lum_gray1, lum_white]; norm_num
    · unfold contrastValue
      rw [lum_gray1, lum_white]
      norm_num
  exact ⟨by decide, by decide, by decide, by decide, hacc,
    claim_C7 4.5 ⟨255, 255, 255⟩ ⟨1, 1, 1⟩ ⟨0, 0, 0⟩ (by decide) (by decide)
      (by decide) (by decide) hacc⟩

/-- Claim C8: the checker is deterministic — it is a pure function of the
threshold and the two colors, so invocations on equal inputs yield equal
outcomes (same acceptance or rejection, kind, computed value and message
data). -/
theorem claim_C8 (t t' : ℝ) (c1 c2 d1 d2 : Color)
    (ht : t = t') (h1 : c1 = d1) (h2 : c2 = d2) :
    check_color_contrast t c1 c2 = check_color_contrast t' d1 d2 := by
  rw [ht, h1, h2]

theorem claim_C8_witness :
    (4.5 : ℝ) = 4.5 ∧ (⟨0, 0, 0⟩ : Color) = ⟨0, 0, 0⟩ ∧
    (⟨255, 255, 255⟩ : Color) = ⟨255, 255, 255⟩ ∧
    check_color_contrast 4.5 ⟨0, 0, 0⟩ ⟨255, 255, 255⟩ =
      check_color_contrast 4.5 ⟨0, 0, 0⟩ ⟨255, 255, 255⟩ :=
  ⟨rfl, rfl, rfl, claim_C8 4.5 4.5 ⟨0, 0, 0⟩ ⟨255, 255, 255⟩ ⟨0, 0, 0⟩
    ⟨255, 255, 255⟩ rfl rfl rfl⟩

/-- Claim C9: every rejection carries a machine-distinguishable kind, and an
insufficient-contrast rejection reports in its message the computed value
rounded to two decimal places together with the required minimum. -/
theorem claim_C9 (t : ℝ) (c1 c2 : Color)
    (h : check_color_contrast t c1 c2 ≠ ContrastOutcome.accepted) :
    (∃ k, (check_color_contrast t c1 c2).kind = some k) ∧
    ((check_color_contrast t c1 c2).kind =
        some ErrorKind.insufficientContrast →
      (check_color_contrast t c1 c2).messageValue2dp =
          some (roundTo2 (contrastValue c1 c2)) ∧
        (check_color_contrast t c1 c2).messageMinimum = some t) := by
  by_cases hord : get_relative_luminance c2 < get_relative_luminance c1
  · rw [check_of_gt hord]
    refine ⟨⟨ErrorKind.fillNotDarker, rfl⟩, fun hk => ?_⟩
    simp [ContrastOutcome.kind] at hk
  · push_neg at hord
    by_cases hv : contrastValue c1 c2 < t
    · rw [check_of_le_lt hord hv]
      exact ⟨⟨ErrorKind.insufficientContrast, rfl⟩, fun _ => ⟨rfl, rfl⟩⟩
    · push_neg at hv
      exact absurd (check_of_le_ge hord hv) h

theorem claim_C9_witness :
    check_color_contrast 4.5 ⟨255, 255, 255⟩ ⟨0, 0, 0⟩ ≠
      ContrastOutcome.accepted ∧
    ((∃ k, (check_color_contrast 4.5 ⟨255, 255, 255⟩ ⟨0, 0, 0⟩).kind =
        some k) ∧
    ((check_color_contrast 4.5 ⟨255, 255, 255⟩ ⟨0, 0, 0⟩).kind =
        some ErrorKind.insufficientContrast →
      (check_color_contrast 4.5 ⟨255, 255, 255⟩ ⟨0, 0, 0⟩).messageValue2dp =
          some (roundTo2 (contrastValue ⟨255, 255, 255⟩ ⟨0, 0, 0⟩)) ∧
        (check_color_contrast 4.5 ⟨255, 255, 255⟩ ⟨0, 0, 0⟩).messageMinimum =
          some 4.5)) := by
  have hfail : check_color_contrast 4.5 ⟨255, 255, 255⟩ ⟨0, 0, 0⟩ =
      ContrastOutcome.fillNotDarker 400 := by
    apply check_of_gt
    rw [lum_black, lum_white]
    norm_num
  have h : check_color_contrast 4.5 ⟨255, 255, 255⟩ ⟨0, 0, 0⟩ ≠
      ContrastOutcome.accepted := by
    rw [hfail]
    simp
  exact ⟨h, claim_C9 4.5 ⟨255, 255, 255⟩ ⟨0, 0, 0⟩ h⟩

/-- Claim C10: when the two colors have exactly equal luminances the strict
ordering check does not fire, the computed contrast value is exactly 1, and
for any threshold above 1 the pair is rejected with the
insufficient-contrast kind.  (Proved for every pair with equal luminances,
distinct or not, which subsumes the claim's distinct pairs.) -/
theorem claim_C10 (t : ℝ) (c1 c2 : Color)
    (heq : get_relative_luminance c1 = get_relative_luminance c2)
    (ht : 1 < t) :
    check_color_contrast t c1 c2 ≠ ContrastOutcome.fillNotDarker 400 ∧
    contrastValue c1 c2 = 1 ∧
    check_color_contrast t c1 c2 =
      ContrastOutcome.insufficientContrast 400 1 t := by
  have hval : contrastValue c1 c2 = 1 := by
    unfold contrastValue
    rw [← heq]
    have h := lum_nonneg c1
    have hpos : get_relative_luminance c1 + 0.05 ≠ 0 := by positivity
    field_simp
  have hc : check_color_contrast t c1 c2 =
      ContrastOutcome.insufficientContrast 400 (contrastValue c1 c2) t :=
    check_of_le_lt (le_of_eq heq) (by rw [hval]; exact ht)
  rw [hval] at hc
  refine ⟨?_, hval, hc⟩
  rw [hc]
  simp

theorem claim_C10_witness :
    get_relative_luminance ⟨0, 0, 0⟩ = get_relative_luminance ⟨0, 0, 0⟩ ∧
    (1 : ℝ) < 4.5 ∧
    (check_color_contrast 4.5 ⟨0, 0, 0⟩ ⟨0, 0, 0⟩ ≠
        ContrastOutcome.fillNotDarker 400 ∧
      contrastValue ⟨0, 0, 0⟩ ⟨0, 0, 0⟩ = 1 ∧
      check_color_contrast 4.5 ⟨0, 0, 0⟩ ⟨0, 0, 0⟩ =
        ContrastOutcome.insufficientContrast 400 1 4.5) :=
  ⟨rfl, by norm_num, claim_C10 4.5 ⟨0, 0, 0⟩ ⟨0, 0, 0⟩ rfl (by norm_num)⟩

end QrcodeApi
